import Mathlib

/-!
Shallow embedding of the api_basics HTTP service (Hono + Drizzle/D1 worker).

The embedding covers the auth library (`src/lib/auth.ts`: token codec, bearer
extraction), the auth middleware (`src/middleware/auth.ts`: `requireAuth`),
and the route handlers of `src/index.ts` (register, token/login, refresh,
revoke, profile, todos).  JavaScript strings become Lean `String`, JSON values
become the inductive `JsValue`, the D1 database becomes an explicit `DB`
record of row lists, and the ambient clock becomes an explicit `now : Nat`
(seconds since epoch).  The jsonwebtoken library is modelled by an executable
codec in which a token string carries its payload fields and the key its MAC
verifies under; `jwt.verify` succeeds exactly when that key equals the
supplied secret and the expiry lies in the future.  All functions are total:
code paths that catch exceptions are modelled by `Option`/explicit error
responses.
-/

namespace ApiBasics

/-! ### JavaScript value model -/

/-- Model of a JavaScript (JSON-decoded) value.  `undefined` marks an absent
field; numbers are restricted to integers (all numbers appearing in this
service are integral). -/
inductive JsValue where
  | undefined
  | null
  | bool (b : Bool)
  | num (n : Int)
  | str (s : String)
  | arr (elems : List JsValue)
  | obj (fields : List (String × JsValue))

/-- JavaScript `typeof` on the modelled values.  Note `typeof null` and
`typeof` of any array or plain object are all the string `"object"`. -/
def jsTypeof : JsValue → String
  | .undefined => "undefined"
  | .null => "object"
  | .bool _ => "boolean"
  | .num _ => "number"
  | .str _ => "string"
  | .arr _ => "object"
  | .obj _ => "object"

/-- JavaScript truthiness (`Boolean(v)`) for the modelled values. -/
def truthy : JsValue → Bool
  | .undefined => false
  | .null => false
  | .bool b => b
  | .num n => !(n == 0)
  | .str s => !(s == "")
  | .arr _ => true
  | .obj _ => true

/-- Truthiness of an optional string request field: JavaScript `!x` is true
for a missing field (`undefined`) and for the empty string. -/
def isFalsyStr : Option String → Bool
  | none => true
  | some s => s == ""

/-- Field lookup in a modelled JSON object (first match wins). -/
def objGet (v : JsValue) (key : String) : Option JsValue :=
  match v with
  | .obj fields => (fields.find? (fun p => p.1 == key)).map (fun p => p.2)
  | _ => none

/-! ### JavaScript string helpers (structural, kernel-reducible) -/

/-- Model of JavaScript `String.prototype.split` with a single-character
separator: splits on every occurrence, keeping empty pieces. -/
def splitChar (sep : Char) : List Char → List (List Char)
  | [] => [[]]
  | c :: rest =>
    match splitChar sep rest with
    | [] => [[c]]
    | g :: gs => if c = sep then [] :: g :: gs else (c :: g) :: gs

/-- String-level wrapper of `splitChar`. -/
def stringSplit (sep : Char) (s : String) : List String :=
  (splitChar sep s.toList).map (fun cs => String.mk cs)

/-- Model of JavaScript `String.prototype.includes` with a one-character
needle (the only use in the source is `email.includes('@')`). -/
def strContainsChar (s : String) (c : Char) : Bool :=
  s.toList.contains c

/-- Decimal digit test. -/
def isDigitChar (c : Char) : Bool :=
  '0' ≤ c && c ≤ '9'

/-- Value of a decimal digit character. -/
def digitVal (c : Char) : Nat :=
  c.toNat - '0'.toNat

/-- Decimal parse of a digit list (most significant first); `none` when the
list is empty or holds a non-digit. -/
def natOfDigits (cs : List Char) : Option Nat :=
  if cs.isEmpty then none
  else if cs.all isDigitChar then
    some (cs.foldl (fun acc c => acc * 10 + digitVal c) 0)
  else none

/-- Digit character of a value below ten. -/
def digitChar (n : Nat) : Char :=
  Char.ofNat ('0'.toNat + n)

/-- Decimal digits of a natural number (fuel-driven, kernel-reducible). -/
def natToStringAux : Nat → Nat → List Char
  | 0, _ => []
  | fuel + 1, n =>
    if n < 10 then [digitChar n]
    else natToStringAux fuel (n / 10) ++ [digitChar (n % 10)]

/-- Decimal rendering of a natural number. -/
def natToString (n : Nat) : String :=
  String.mk (natToStringAux (n + 1) n)

/-- Decimal rendering of an integer. -/
def intToString : Int → String
  | .ofNat m => natToString m
  | .negSucc m => "-" ++ natToString (m + 1)

/-! ### JSON stringify / parse (models `JSON.stringify` / `JSON.parse`) -/

/-- Escape of one character inside a JSON string literal. -/
def escapeJsonChar (c : Char) : List Char :=
  if c = '"' then ['\\', '"']
  else if c = '\\' then ['\\', '\\']
  else if c = '\n' then ['\\', 'n']
  else if c = '\t' then ['\\', 't']
  else if c = '\r' then ['\\', 'r']
  else [c]

/-- JSON string literal for a raw string. -/
def quoteJson (s : String) : String :=
  "\"" ++ String.mk (s.toList.flatMap escapeJsonChar) ++ "\""

/-- Is this value `undefined`?  (`JSON.stringify` drops such object fields.) -/
def isUndef : JsValue → Bool
  | .undefined => true
  | _ => false

/-- Does the field list keep at least one non-`undefined` value? -/
def hasDefinedField (fields : List (String × JsValue)) : Bool :=
  fields.any (fun p => !(isUndef p.2))

mutual

/-- Model of `JSON.stringify` on the modelled values: `undefined` in value
position renders as `null` (as it does inside a JavaScript array), object
fields holding `undefined` are dropped. -/
def jsStringify : JsValue → String
  | .undefined => "null"
  | .null => "null"
  | .bool true => "true"
  | .bool false => "false"
  | .num n => intToString n
  | .str s => quoteJson s
  | .arr elems => "[" ++ jsStringifyList elems ++ "]"
  | .obj fields => "\x7b" ++ jsStringifyFields fields ++ "\x7d"

/-- Comma-joined stringification of array elements. -/
def jsStringifyList : List JsValue → String
  | [] => ""
  | [v] => jsStringify v
  | v :: w :: rest => jsStringify v ++ "," ++ jsStringifyList (w :: rest)

/-- Comma-joined stringification of object fields, dropping `undefined`. -/
def jsStringifyFields : List (String × JsValue) → String
  | [] => ""
  | (k, v) :: rest =>
    if isUndef v then jsStringifyFields rest
    else
      quoteJson k ++ ":" ++ jsStringify v ++
        (if hasDefinedField rest then "," else "") ++ jsStringifyFields rest

end

/-- Skip JSON whitespace. -/
def skipWs : List Char → List Char
  | [] => []
  | c :: cs => if c = ' ' || c = '\n' || c = '\t' || c = '\r' then skipWs cs else c :: cs

/-- Parse the body of a JSON string literal (after the opening quote),
returning the decoded string and the rest of the input. -/
def parseStringBody : List Char → Option (String × List Char)
  | [] => none
  | '"' :: rest => some ("", rest)
  | '\\' :: e :: rest =>
    match
      (if e = '"' then some '"'
       else if e = '\\' then some '\\'
       else if e = '/' then some '/'
       else if e = 'n' then some '\n'
       else if e = 't' then some '\t'
       else if e = 'r' then some '\r'
       else none) with
    | none => none
    | some c =>
      match parseStringBody rest with
      | none => none
      | some (s, r) => some (String.mk (c :: s.toList), r)
  | c :: rest =>
    match parseStringBody rest with
    | none => none
    | some (s, r) => some (String.mk (c :: s.toList), r)

mutual

/-- Fuel-driven recursive-descent parser for one JSON value; models
`JSON.parse` (which throws on bad input — modelled as `none`). -/
def parseVal : Nat → List Char → Option (JsValue × List Char)
  | 0, _ => none
  | fuel + 1, cs =>
    match skipWs cs with
    | 'n' :: 'u' :: 'l' :: 'l' :: rest => some (.null, rest)
    | 't' :: 'r' :: 'u' :: 'e' :: rest => some (.bool true, rest)
    | 'f' :: 'a' :: 'l' :: 's' :: 'e' :: rest => some (.bool false, rest)
    | '"' :: rest =>
      match parseStringBody rest with
      | none => none
      | some (s, r) => some (.str s, r)
    | '[' :: rest =>
      (match skipWs rest with
       | ']' :: r => some (.arr [], r)
       | _ => parseArrTail fuel rest [])
    | '\x7b' :: rest =>
      (match skipWs rest with
       | '\x7d' :: r => some (.obj [], r)
       | _ => parseObjTail fuel rest [])
    | '-' :: rest =>
      (match rest.span isDigitChar with
       | (digits, r) =>
         match natOfDigits digits with
         | none => none
         | some n => some (.num (-(Int.ofNat n)), r))
    | c :: rest =>
      if isDigitChar c then
        match (c :: rest).span isDigitChar with
        | (digits, r) =>
          match natOfDigits digits with
          | none => none
          | some n => some (.num (Int.ofNat n), r)
      else none
    | [] => none

/-- Parse the remaining elements of a non-empty JSON array (input positioned
after the opening bracket or a comma). -/
def parseArrTail : Nat → List Char → List JsValue → Option (JsValue × List Char)
  | 0, _, _ => none
  | fuel + 1, cs, acc =>
    match parseVal fuel cs with
    | none => none
    | some (v, rest) =>
      match skipWs rest with
      | ',' :: r => parseArrTail fuel r (acc ++ [v])
      | ']' :: r => some (.arr (acc ++ [v]), r)
      | _ => none

/-- Parse the remaining fields of a non-empty JSON object (input positioned
after the opening brace or a comma). -/
def parseObjTail : Nat → List Char → List (String × JsValue) → Option (JsValue × List Char)
  | 0, _, _ => none
  | fuel + 1, cs, acc =>
    match skipWs cs with
    | '"' :: rest =>
      match parseStringBody rest with
      | none => none
      | some (k, r1) =>
        match skipWs r1 with
        | ':' :: r2 =>
          (match parseVal fuel r2 with
           | none => none
           | some (v, r3) =>
             match skipWs r3 with
             | ',' :: r4 => parseObjTail fuel r4 (acc ++ [(k, v)])
             | '\x7d' :: r4 => some (.obj (acc ++ [(k, v)]), r4)
             | _ => none)
        | _ => none
    | _ => none

end

/-- Model of `JSON.parse`: `some` of the decoded value, `none` where the
JavaScript function would throw. -/
def jsonParse (s : String) : Option JsValue :=
  match parseVal (2 * s.toList.length + 2) s.toList with
  | none => none
  | some (v, rest) => if (skipWs rest).isEmpty then some v else none

/-! ### Token codec (`src/lib/auth.ts` with a model of jsonwebtoken) -/

/-- The `TokenPayload` interface of `src/lib/auth.ts`, with the `exp` claim
the jsonwebtoken library adds when signing with `expiresIn` (seconds since
epoch). -/
structure TokenPayload where
  userId : String
  email : String
  type : String
  exp : Nat
deriving DecidableEq, Repr

/-- Model of the serialized JWT: the payload fields joined with a bar, the
final component being the key the signature verifies under (signing with a
secret produces exactly that component). -/
def tokenToString (p : TokenPayload) (secret : String) : String :=
  p.userId ++ "|" ++ p.email ++ "|" ++ p.type ++ "|" ++ natToString p.exp ++ "|" ++ secret

/-- Model of the parsing half of `jwt.verify`: recover the payload and the
key the embedded signature verifies under; `none` for malformed tokens. -/
def parseJwt (token : String) : Option (TokenPayload × String) :=
  match splitChar '|' token.toList with
  | [u, e, t, expDigits, sig] =>
    match natOfDigits expDigits with
    | none => none
    | some n => some (⟨String.mk u, String.mk e, String.mk t, n⟩, String.mk sig)
  | _ => none

/-- Model of `jwt.verify(token, secret)` at clock time `now`: the payload
when the token parses, its signature verifies under `secret`, and the expiry
is still in the future (jsonwebtoken rejects once `now ≥ exp`); `none`
(the library throws, caught by the caller) otherwise. -/
def jwtVerify (token secret : String) (now : Nat) : Option TokenPayload :=
  match parseJwt token with
  | none => none
  | some (p, sig) => if sig == secret && now < p.exp then some p else none

/-- `generateAccessToken` of `src/lib/auth.ts`: signs
`(userId, email, type := "access")` with the secret, expiring
`expirySeconds` after `now`. -/
def generateAccessToken (userId email secret : String) (expirySeconds now : Nat) : String :=
  tokenToString ⟨userId, email, "access", now + expirySeconds⟩ secret

/-- `verifyAccessToken` of `src/lib/auth.ts`: `jwt.verify` inside a
try/catch that turns every throw into `null`, then a type-discriminator
check rejecting any payload whose `type` is not `"access"`. -/
def verifyAccessToken (token secret : String) (now : Nat) : Option TokenPayload :=
  match jwtVerify token secret now with
  | none => none
  | some payload => if !(payload.type == "access") then none else some payload

/-- `extractBearerToken` of `src/lib/auth.ts`: `null` for a missing (or
falsy) header; otherwise split on single spaces and demand exactly two
parts with the literal first word `Bearer`. -/
def extractBearerToken (authHeader : Option String) : Option String :=
  match authHeader with
  | none => none
  | some h =>
    match stringSplit ' ' h with
    | [scheme, tok] => if scheme == "Bearer" then some tok else none
    | _ => none

/-- `hashPassword` of `src/lib/auth.ts` (bcrypt), modelled as an injective
tagging of the plaintext; the salt nondeterminism is not observable by any
claim settled here. -/
def hashPassword (password : String) : String :=
  "bcrypt$" ++ password

/-- `verifyPassword` of `src/lib/auth.ts`: bcrypt compare, true exactly when
the plaintext re-hashes to the stored hash. -/
def verifyPassword (password hash : String) : Bool :=
  hash == hashPassword password

/-- Hexadecimal digit test, both cases (the UUID regex carries the `i`
flag). -/
def isHexChar (c : Char) : Bool :=
  ('0' ≤ c && c ≤ '9') || ('a' ≤ c && c ≤ 'f') || ('A' ≤ c && c ≤ 'F')

/-- `isValidUUID` of `src/lib/auth.ts`: the case-insensitive regex
`^[0-9a-f]8-[0-9a-f]4-4[0-9a-f]3-[89ab][0-9a-f]3-[0-9a-f]12$` (braced
counts), demanding a version-4, variant-89ab UUID shape. -/
def isValidUUID (s : String) : Bool :=
  match splitChar '-' s.toList with
  | [a, b, c, d, e] =>
    a.length == 8 && a.all isHexChar &&
    b.length == 4 && b.all isHexChar &&
    (match c with
     | c0 :: cRest => c0 == '4' && cRest.length == 3 && cRest.all isHexChar
     | [] => false) &&
    (match d with
     | d0 :: dRest =>
       (d0 == '8' || d0 == '9' || d0 == 'a' || d0 == 'b' || d0 == 'A' || d0 == 'B') &&
         dRest.length == 3 && dRest.all isHexChar
     | [] => false) &&
    e.length == 12 && e.all isHexChar
  | _ => false

/-! ### Data model (`src/db/schema.ts`) -/

/-- Row of the `users` table. -/
structure User where
  id : String
  email : String
  password : String
  name : String
  bio : String
  preferences : String
  createdAt : Nat
  updatedAt : Nat
deriving DecidableEq, Repr

/-- Row of the `refresh_tokens` table. -/
structure RefreshTokenRow where
  id : Nat
  token : String
  userId : String
  expiresAt : Nat
  createdAt : Nat
deriving DecidableEq, Repr

/-- Row of the `todos` table. -/
structure Todo where
  id : String
  userId : String
  title : String
  description : String
  completed : Bool
  createdAt : Nat
  updatedAt : Nat
deriving DecidableEq, Repr

/-- The D1 database as explicit row lists (insertion order preserved; the
unique constraints of the schema are not re-stated here, the handlers are
proved against arbitrary lists). -/
structure DB where
  users : List User
  refreshTokens : List RefreshTokenRow
  todos : List Todo
deriving DecidableEq, Repr

/-- Environment configuration consumed by the handlers (`JWT_SECRET`,
`parseInt(JWT_ACCESS_EXPIRY)`, `parseInt(JWT_REFRESH_EXPIRY)`). -/
structure Config where
  jwtSecret : String
  accessExpiry : Nat
  refreshExpiry : Nat
deriving DecidableEq, Repr

/-- An HTTP response: status code and (JSON) body.  Content negotiation by
`formatResponse` reshapes the body per client but is driven by this same
`(data, status)` pair; the JSON rendering is modelled. -/
structure Response where
  status : Nat
  body : JsValue

/-- Error body shape used throughout `src/index.ts`:
`\x7b error, message \x7d`. -/
def errResp (status : Nat) (error message : String) : Response :=
  ⟨status, .obj [("error", .str error), ("message", .str message)]⟩

/-! ### Auth middleware (`src/middleware/auth.ts`) -/

/-- Outcome of the `requireAuth` middleware: either a 401 response sent
without running the route handler, or the `userId`/`userEmail` pair stored
in the request context for the handler. -/
inductive AuthOutcome where
  | denied (resp : Response)
  | granted (userId email : String)

/-- `requireAuth` of `src/middleware/auth.ts`: extract the bearer token from
the raw Authorization header; `if (!token)` — the extraction returned null
or the extracted token is the (falsy) empty string, as for the header
`"Bearer "` — answer the missing-header 401; otherwise verify the token
(null → the invalid-token 401) and expose the payload's identity. -/
def requireAuth (authHeader : Option String) (secret : String) (now : Nat) : AuthOutcome :=
  let token := extractBearerToken authHeader
  if isFalsyStr token then
    .denied (errResp 401 "Unauthorized"
      "Missing or invalid Authorization header. Expected: Authorization: Bearer <token>")
  else
    match verifyAccessToken (token.getD "") secret now with
    | none => .denied (errResp 401 "Unauthorized" "Invalid or expired access token")
    | some payload => .granted payload.userId payload.email

/-! ### Auth endpoint handlers (`src/index.ts`) -/

/-- `POST /register`: field presence, `@` check, password length, email
uniqueness, then insert the new user (empty bio, `\x7b\x7d` preferences,
timestamps defaulted to insertion time).  `newId` stands for the
`crypto.randomUUID()` draw. -/
def registerHandler (db : DB) (now : Nat) (email password name : Option String)
    (newId : String) : Response × DB :=
  if isFalsyStr email || isFalsyStr password || isFalsyStr name then
    (errResp 400 "Bad Request" "Missing required fields: email, password, name", db)
  else
    let e := email.getD ""
    let p := password.getD ""
    let n := name.getD ""
    if !(strContainsChar e '@') then
      (errResp 400 "Bad Request" "Invalid email format", db)
    else if p.length < 8 then
      (errResp 400 "Bad Request" "Password must be at least 8 characters long", db)
    else
      match db.users.find? (fun u => u.email == e) with
      | some _ => (errResp 409 "Conflict" "User with this email already exists", db)
      | none =>
        let newUser : User :=
          { id := newId, email := e, password := hashPassword p, name := n,
            bio := "", preferences := "\x7b\x7d", createdAt := now, updatedAt := now }
        (⟨201, .obj [("success", .bool true),
                     ("message", .str "User registered successfully"),
                     ("userId", .str newId), ("email", .str e), ("name", .str n)]⟩,
         { db with users := db.users ++ [newUser] })

/-- Autoincrement model for the `refresh_tokens.id` column. -/
def nextRefreshId (db : DB) : Nat :=
  db.refreshTokens.foldr (fun r acc => max acc (r.id + 1)) 0

/-- `POST /token` (login): look up by email, verify the password, then issue
an access token and persist a fresh refresh token row expiring
`cfg.refreshExpiry` seconds from `now`.  `newRefreshToken` stands for the
`generateRefreshToken()` random draw.  Both credential failures answer with
the same literal 401 body. -/
def loginHandler (db : DB) (cfg : Config) (now : Nat) (email password : Option String)
    (newRefreshToken : String) : Response × DB :=
  if isFalsyStr email || isFalsyStr password then
    (errResp 400 "Bad Request" "Missing required fields: email, password", db)
  else
    let e := email.getD ""
    let p := password.getD ""
    match db.users.find? (fun u => u.email == e) with
    | none => (errResp 401 "Unauthorized" "Invalid email or password", db)
    | some user =>
      if !(verifyPassword p user.password) then
        (errResp 401 "Unauthorized" "Invalid email or password", db)
      else
        let accessToken := generateAccessToken user.id user.email cfg.jwtSecret cfg.accessExpiry now
        let row : RefreshTokenRow :=
          { id := nextRefreshId db, token := newRefreshToken, userId := user.id,
            expiresAt := now + cfg.refreshExpiry, createdAt := now }
        (⟨200, .obj [("success", .bool true), ("token_type", .str "Bearer"),
                     ("access_token", .str accessToken),
                     ("refresh_token", .str newRefreshToken),
                     ("expires_in", .num (Int.ofNat cfg.accessExpiry))]⟩,
         { db with refreshTokens := db.refreshTokens ++ [row] })

/-- The inner join of `refresh_tokens` with `users` on
`refreshTokens.userId = users.id`, filtered on the token string. -/
def findRefreshJoin (db : DB) (t : String) : Option (RefreshTokenRow × User) :=
  match db.refreshTokens.find? (fun r => r.token == t) with
  | none => none
  | some row =>
    match db.users.find? (fun u => u.id == row.userId) with
    | none => none
    | some user => some (row, user)

/-- `POST /refresh`: look the token up (joined with its owner); absent →
401 invalid; stored expiry strictly in the past → delete the row and answer
401 expired; otherwise answer 200 with a fresh access token for the owning
account, leaving the store untouched. -/
def refreshHandler (db : DB) (cfg : Config) (now : Nat)
    (refreshToken : Option String) : Response × DB :=
  if isFalsyStr refreshToken then
    (errResp 400 "Bad Request" "Missing required field: refresh_token", db)
  else
    let t := refreshToken.getD ""
    match findRefreshJoin db t with
    | none => (errResp 401 "Unauthorized" "Invalid refresh token", db)
    | some (row, user) =>
      if row.expiresAt < now then
        (errResp 401 "Unauthorized" "Refresh token has expired",
         { db with refreshTokens := db.refreshTokens.filter (fun r => !(r.token == t)) })
      else
        (⟨200, .obj [("success", .bool true), ("token_type", .str "Bearer"),
                     ("access_token", .str (generateAccessToken user.id user.email
                        cfg.jwtSecret cfg.accessExpiry now)),
                     ("expires_in", .num (Int.ofNat cfg.accessExpiry))]⟩,
         db)

/-- `POST /revoke`: delete the matching refresh row; an empty `returning()`
(no row matched) is a 404, otherwise a 200 success. -/
def revokeHandler (db : DB) (refreshToken : Option String) : Response × DB :=
  if isFalsyStr refreshToken then
    (errResp 400 "Bad Request" "Missing required field: refresh_token", db)
  else
    let t := refreshToken.getD ""
    let remaining := db.refreshTokens.filter (fun r => !(r.token == t))
    match db.refreshTokens.find? (fun r => r.token == t) with
    | none =>
      (errResp 404 "Not Found" "Refresh token not found",
       { db with refreshTokens := remaining })
    | some _ =>
      (⟨200, .obj [("success", .bool true), ("message", .str "Token revoked successfully")]⟩,
       { db with refreshTokens := remaining })

/-! ### Profile handlers (`src/index.ts`) -/

/-- `GET /profile`: select the authenticated user's row and answer with the
profile, the stored preferences string run through `JSON.parse` (a parse
throw is caught as a 500). -/
def getProfileHandler (db : DB) (userId : String) : Response :=
  match db.users.find? (fun u => u.id == userId) with
  | none => errResp 404 "Not Found" "User not found"
  | some user =>
    match jsonParse user.preferences with
    | none => errResp 500 "Internal Server Error" "Failed to get profile"
    | some prefs =>
      ⟨200, .obj [("id", .str user.id), ("email", .str user.email),
                  ("name", .str user.name), ("bio", .str user.bio),
                  ("preferences", prefs),
                  ("createdAt", .num (Int.ofNat user.createdAt)),
                  ("updatedAt", .num (Int.ofNat user.updatedAt))]⟩

/-- The `updates` object applied by `PUT /profile` to the user's row:
`updatedAt` always, the other fields only when the request supplied them
(`undefined` skips). -/
def applyProfileUpdates (now : Nat) (name bio : Option String)
    (prefString : Option String) (u : User) : User :=
  { u with
      name := name.getD u.name,
      bio := bio.getD u.bio,
      preferences := prefString.getD u.preferences,
      updatedAt := now }

/-- `PUT /profile`: reject a supplied `preferences` whose `typeof` is not
`"object"` with a 400 before touching the store; otherwise update the row
(`preferences` stored as its `JSON.stringify` text) and echo the updated
profile, its preferences re-parsed.  An empty `returning()` makes the code
dereference `undefined`, caught as a 500. -/
def putProfileHandler (db : DB) (now : Nat) (userId : String)
    (name bio : Option String) (preferences : Option JsValue) : Response × DB :=
  let prefCheck : Option (Option String) :=
    match preferences with
    | none => some none
    | some v => if !(jsTypeof v == "object") then none else some (some (jsStringify v))
  match prefCheck with
  | none => (errResp 400 "Bad Request" "preferences must be an object", db)
  | some prefString =>
    let db' : DB :=
      { db with users := db.users.map (fun u =>
          if u.id == userId then applyProfileUpdates now name bio prefString u else u) }
    match db'.users.find? (fun u => u.id == userId) with
    | none => (errResp 500 "Internal Server Error" "Failed to update profile", db')
    | some user =>
      match jsonParse user.preferences with
      | none => (errResp 500 "Internal Server Error" "Failed to update profile", db')
      | some prefs =>
        (⟨200, .obj [("success", .bool true),
                     ("message", .str "Profile updated successfully"),
                     ("profile", .obj [("id", .str user.id), ("email", .str user.email),
                                       ("name", .str user.name), ("bio", .str user.bio),
                                       ("preferences", prefs)])]⟩,
         db')

/-! ### Todo handlers (`src/index.ts`) -/

/-- JSON shape of a todo row in responses. -/
def todoJson (t : Todo) : JsValue :=
  .obj [("id", .str t.id), ("userId", .str t.userId), ("title", .str t.title),
        ("description", .str t.description), ("completed", .bool t.completed),
        ("createdAt", .num (Int.ofNat t.createdAt)),
        ("updatedAt", .num (Int.ofNat t.updatedAt))]

/-- The ownership-scoped lookup used by the `/todos/:id` handlers:
`where(and(eq(todos.id, todoId), eq(todos.userId, userId)))`. -/
def findOwnedTodo (db : DB) (userId todoId : String) : Option Todo :=
  db.todos.find? (fun t => t.id == todoId && t.userId == userId)

/-- `POST /todos`: require a truthy title, insert a row owned by the
authenticated account (`description || ''`, `completed := false`).  `newId`
stands for the `crypto.randomUUID()` draw. -/
def postTodoHandler (db : DB) (now : Nat) (userId : String)
    (title description : Option String) (newId : String) : Response × DB :=
  if isFalsyStr title then
    (errResp 400 "Bad Request" "Missing required field: title", db)
  else
    let todo : Todo :=
      { id := newId, userId := userId, title := title.getD "",
        description := description.getD "", completed := false,
        createdAt := now, updatedAt := now }
    (⟨201, .obj [("success", .bool true), ("message", .str "Todo created successfully"),
                 ("todo", todoJson todo)]⟩,
     { db with todos := db.todos ++ [todo] })

/-- `GET /todos/:id`: 400 on a malformed UUID, then the ownership-scoped
lookup; a miss (absent or foreign) is a 404. -/
def getTodoHandler (db : DB) (userId todoId : String) : Response :=
  if !(isValidUUID todoId) then
    errResp 400 "Bad Request" "Invalid todo ID format"
  else
    match findOwnedTodo db userId todoId with
    | none => errResp 404 "Not Found" "Todo not found"
    | some todo => ⟨200, todoJson todo⟩

/-- The `updates` object applied by `PUT /todos/:id`:`updatedAt` always,
title/description when supplied, `completed` coerced through `Boolean()`. -/
def applyTodoUpdates (now : Nat) (title description : Option String)
    (completed : Option JsValue) (t : Todo) : Todo :=
  { t with
      title := title.getD t.title,
      description := description.getD t.description,
      completed := match completed with | none => t.completed | some v => truthy v,
      updatedAt := now }

/-- `PUT /todos/:id`: 400 on a malformed UUID; ownership-scoped existence
check (miss → 404); then an update whose `where` filters by id alone, the
updated row echoed back. -/
def putTodoHandler (db : DB) (now : Nat) (userId todoId : String)
    (title description : Option String) (completed : Option JsValue) : Response × DB :=
  if !(isValidUUID todoId) then
    (errResp 400 "Bad Request" "Invalid todo ID format", db)
  else
    match findOwnedTodo db userId todoId with
    | none => (errResp 404 "Not Found" "Todo not found", db)
    | some _ =>
      let db' : DB :=
        { db with todos := db.todos.map (fun t =>
            if t.id == todoId then applyTodoUpdates now title description completed t else t) }
      match db'.todos.find? (fun t => t.id == todoId) with
      | none => (errResp 500 "Internal Server Error" "Failed to update todo", db')
      | some todo =>
        (⟨200, .obj [("success", .bool true), ("message", .str "Todo updated successfully"),
                     ("todo", todoJson todo)]⟩,
         db')

/-- `DELETE /todos/:id`: 400 on a malformed UUID; ownership-scoped existence
check (miss → 404); then a delete whose `where` filters by id alone. -/
def deleteTodoHandler (db : DB) (userId todoId : String) : Response × DB :=
  if !(isValidUUID todoId) then
    (errResp 400 "Bad Request" "Invalid todo ID format", db)
  else
    match findOwnedTodo db userId todoId with
    | none => (errResp 404 "Not Found" "Todo not found", db)
    | some _ =>
      (⟨200, .obj [("success", .bool true), ("message", .str "Todo deleted successfully")]⟩,
       { db with todos := db.todos.filter (fun t => !(t.id == todoId)) })

/-! ### Concrete fixtures used by the witness theorems -/

/-- Reference configuration: 3600-second access tokens, 2592000-second
refresh tokens. -/
def cfg0 : Config := ⟨"secret", 3600, 2592000⟩

/-- A registered account. -/
def user1 : User :=
  ⟨"11111111-1111-4111-8111-111111111111", "a@b.com", hashPassword "password123",
   "Alice", "", "\x7b\x7d", 10, 10⟩

/-- A second registered account. -/
def user2 : User :=
  ⟨"22222222-2222-4222-8222-222222222222", "c@d.com", hashPassword "hunter2hunter2",
   "Bob", "", "\x7b\x7d", 10, 10⟩

/-- A todo owned by the second account. -/
def todo2 : Todo :=
  ⟨"33333333-3333-4333-8333-333333333333", "22222222-2222-4222-8222-222222222222",
   "Water plants", "", false, 10, 10⟩

/-- A stored refresh token owned by the first account, expiring at time
1000. -/
def row1 : RefreshTokenRow :=
  ⟨1, "refreshtok1", "11111111-1111-4111-8111-111111111111", 1000, 10⟩

/-- A small concrete database. -/
def db0 : DB := ⟨[user1, user2], [row1], [todo2]⟩

/-! ### Helper lemmas on list filtering and updating -/

/-- After filtering a list down to the elements failing `p`, `find? p`
finds nothing. -/
theorem find?_filter_not {α : Type} (l : List α) (p : α → Bool) :
    (l.filter (fun a => !(p a))).find? p = none := by
  induction l with
  | nil => rfl
  | cons a l ih =>
    by_cases h : p a <;> simp [List.filter_cons, h, List.find?, ih]

/-- Filtering away the elements satisfying `p` is the identity when none
satisfies it. -/
theorem filter_not_eq_self_of_find?_none {α : Type} (l : List α) (p : α → Bool)
    (h : l.find? p = none) : l.filter (fun a => !(p a)) = l := by
  rw [List.filter_eq_self]
  intro a ha
  rcases List.find?_eq_none.mp h a ha with hpa
  simp [hpa]

/-- Mapping an update over exactly the elements satisfying `p` commutes with
`find? p` when the update preserves `p`. -/
theorem find?_map_update {α : Type} (l : List α) (p : α → Bool) (g : α → α)
    (hg : ∀ x, p (g x) = p x) :
    (l.map (fun x => if p x then g x else x)).find? p = (l.find? p).map g := by
  induction l with
  | nil => rfl
  | cons a l ih =>
    by_cases h : p a
    · simp [List.find?, h, hg a]
    · simp [List.find?, h, ih]

/-! ### C1: access-token verification -/

/-- C1.  `verifyAccessToken token secret` (at clock `now`) returns the
decoded claims `p` if and only if the token parses with a signature valid
under exactly that secret, its expiry is still in the future, and its
payload type discriminator is the string `"access"`; on every other input
(malformed, bad signature, expired, wrong type) it returns `none`, and being
a total function it never raises for untrusted input. -/
theorem verifyAccessToken_correct (token secret : String) (now : Nat) (p : TokenPayload) :
    verifyAccessToken token secret now = some p ↔
      parseJwt token = some (p, secret) ∧ now < p.exp ∧ p.type = "access" := by
  unfold verifyAccessToken jwtVerify
  rcases hp : parseJwt token with _ | ⟨q, sig⟩
  · simp
  · by_cases hsig : sig = secret <;> by_cases hexp : now < q.exp <;>
      by_cases hty : q.type = "access" <;>
        simp [hsig, hexp, hty, Prod.ext_iff] <;> aesop

/-! ### C4: bearer-token extraction and the request guard -/

/-- C4.  The guard extracts a token exactly when the raw Authorization
header value splits on single spaces into exactly two parts whose first is
the literal, case-sensitive word `Bearer`; a falsy extraction result — a
missing header, any other shape, or the extracted empty token of
`"Bearer "` — makes `requireAuth` answer the missing-header 401, a
non-empty extracted token failing verification the invalid-token 401, and
on success the guard exposes the verified payload's account identifier and
email to the handler. -/
theorem requireAuth_correct (h : Option String) (t : String) (secret : String)
    (now : Nat) (uid em : String) :
    (extractBearerToken h = some t ↔ ∃ v, h = some v ∧ stringSplit ' ' v = ["Bearer", t])
    ∧ (isFalsyStr (extractBearerToken h) = true →
        requireAuth h secret now = .denied (errResp 401 "Unauthorized"
          "Missing or invalid Authorization header. Expected: Authorization: Bearer <token>"))
    ∧ (∀ tok, extractBearerToken h = some tok → tok ≠ "" →
        verifyAccessToken tok secret now = none →
        requireAuth h secret now = .denied (errResp 401 "Unauthorized"
          "Invalid or expired access token"))
    ∧ (requireAuth h secret now = .granted uid em →
        ∃ tok payload, extractBearerToken h = some tok ∧ tok ≠ "" ∧
          verifyAccessToken tok secret now = some payload ∧
          uid = payload.userId ∧ em = payload.email) := by
  refine ⟨?_, ?_, ?_, ?_⟩
  · unfold extractBearerToken
    cases h with
    | none => simp
    | some v =>
      rcases hsplit : stringSplit ' ' v with _ | ⟨s1, _ | ⟨s2, _ | ⟨s3, rest⟩⟩⟩ <;>
        simp [hsplit, beq_iff_eq]
  · intro hfalsy
    unfold requireAuth
    simp [hfalsy]
  · intro tok htok hne hver
    unfold requireAuth
    simp [htok, hver, isFalsyStr, beq_iff_eq, hne]
  · intro hgr
    unfold requireAuth at hgr
    rcases he : extractBearerToken h with _ | tok
    · simp [he, isFalsyStr] at hgr
    · by_cases hne : tok = ""
      · subst hne
        simp [he, isFalsyStr] at hgr
      · simp only [he, isFalsyStr] at hgr
        rw [if_neg (by simp [beq_iff_eq, hne])] at hgr
        rcases hv : verifyAccessToken tok secret now with _ | payload <;>
          simp only [Option.getD_some, hv] at hgr
        · exact absurd hgr (by simp)
        · injection hgr with h1 h2
          exact ⟨tok, payload, rfl, hne, hv, h1.symm, h2.symm⟩

/-- Witness for C4 at concrete inputs: the header `"Bearer "` extracts the
falsy empty token and is denied with the missing-header 401; a well-formed
`Bearer` header whose token verifies is granted and exposes the payload
identity. -/
theorem requireAuth_correct_witness :
    (requireAuth (some "Bearer ") "secret" 50 = .denied (errResp 401 "Unauthorized"
        "Missing or invalid Authorization header. Expected: Authorization: Bearer <token>"))
    ∧ ∃ tok payload,
        extractBearerToken (some ("Bearer " ++ tokenToString ⟨"u9", "w@x.com", "access", 100⟩ "secret")) = some tok ∧ tok ≠ "" ∧
        verifyAccessToken tok "secret" 50 = some payload ∧
        "u9" = payload.userId ∧ "w@x.com" = payload.email :=
  ⟨(requireAuth_correct (some "Bearer ") "unused" "secret" 50 "u" "e").2.1 (by decide),
   (requireAuth_correct
      (some ("Bearer " ++ tokenToString ⟨"u9", "w@x.com", "access", 100⟩ "secret"))
      "unused" "secret" 50 "u9" "w@x.com").2.2.2 rfl⟩

/-! ### C5: login failures are indistinguishable -/

/-- C5.  A login whose email matches no account and a login whose email
matches an account but whose password fails verification produce literally
the same response: the same 401 status and the same undifferentiated error
body; neither changes the store. -/
theorem login_failures_indistinguishable (db : DB) (cfg : Config) (now1 now2 : Nat)
    (eA pA eB pB rtA rtB : String) (u : User)
    (hA : eA ≠ "") (hpA : pA ≠ "") (hB : eB ≠ "") (hpB : pB ≠ "")
    (hfindA : db.users.find? (fun x => x.email == eA) = none)
    (hfindB : db.users.find? (fun x => x.email == eB) = some u)
    (hbad : verifyPassword pB u.password = false) :
    (loginHandler db cfg now1 (some eA) (some pA) rtA).1 =
      (loginHandler db cfg now2 (some eB) (some pB) rtB).1
    ∧ (loginHandler db cfg now1 (some eA) (some pA) rtA).1.status = 401
    ∧ (loginHandler db cfg now1 (some eA) (some pA) rtA).2 = db
    ∧ (loginHandler db cfg now2 (some eB) (some pB) rtB).2 = db := by
  unfold loginHandler
  simp [isFalsyStr, beq_iff_eq, hA, hpA, hB, hpB, hfindA, hfindB, hbad, errResp]

/-- Witness for C5 at concrete inputs: on `db0`, a login with an unknown
email and a login with `user1`'s email but a wrong password answer
identically with status 401 and leave the store unchanged. -/
theorem login_failures_indistinguishable_witness :
    (loginHandler db0 cfg0 50 (some "nobody@x.com") (some "whatever") "r1").1 =
      (loginHandler db0 cfg0 60 (some "a@b.com") (some "wrongpass") "r2").1
    ∧ (loginHandler db0 cfg0 50 (some "nobody@x.com") (some "whatever") "r1").1.status = 401
    ∧ (loginHandler db0 cfg0 50 (some "nobody@x.com") (some "whatever") "r1").2 = db0
    ∧ (loginHandler db0 cfg0 60 (some "a@b.com") (some "wrongpass") "r2").2 = db0 :=
  login_failures_indistinguishable db0 cfg0 50 60 "nobody@x.com" "whatever"
    "a@b.com" "wrongpass" "r1" "r2" user1
    (by decide) (by decide) (by decide) (by decide)
    (by decide) (by decide) (by decide)

/-! ### C7: register validation and conflict -/

/-- C7.  A register request with a missing (falsy) email, password or name,
an email not containing `@`, or a password shorter than 8 characters fails
with a 400 and leaves the store unchanged; when all checks pass but an
account with that email already exists, it fails with the 409 conflict
response and leaves the store unchanged. -/
theorem registerHandler_validation (db : DB) (now : Nat)
    (email password name : Option String) (newId : String) :
    ((isFalsyStr email = true ∨ isFalsyStr password = true ∨ isFalsyStr name = true
        ∨ strContainsChar (email.getD "") '@' = false
        ∨ (password.getD "").length < 8) →
      (registerHandler db now email password name newId).1.status = 400 ∧
      (registerHandler db now email password name newId).2 = db)
    ∧ (∀ u0, isFalsyStr email = false → isFalsyStr password = false →
        isFalsyStr name = false →
        strContainsChar (email.getD "") '@' = true →
        ¬ (password.getD "").length < 8 →
        db.users.find? (fun u => u.email == email.getD "") = some u0 →
        (registerHandler db now email password name newId).1 =
          errResp 409 "Conflict" "User with this email already exists" ∧
        (registerHandler db now email password name newId).2 = db) := by
  constructor
  · intro hrej
    unfold registerHandler
    rcases hrej with h | h | h | h | h
    · simp [h, errResp]
    · simp [h, errResp]
    · simp [h, errResp]
    · by_cases h1 : isFalsyStr email <;> by_cases h2 : isFalsyStr password <;>
        by_cases h3 : isFalsyStr name <;> simp [h1, h2, h3, h, errResp]
    · by_cases h1 : isFalsyStr email <;> by_cases h2 : isFalsyStr password <;>
        by_cases h3 : isFalsyStr name <;>
          by_cases hc : strContainsChar (email.getD "") '@' <;>
            simp [h1, h2, h3, hc, h, errResp]
  · intro u0 h1 h2 h3 hc hlen hfind
    unfold registerHandler
    simp [h1, h2, h3, hc, hlen, hfind, errResp]

/-- Witness for C7 at concrete inputs: on `db0`, registering with a
7-character password is a 400 with no state change, and registering with
`user1`'s email and otherwise valid fields is the 409 conflict with no
state change. -/
theorem registerHandler_validation_witness :
    ((registerHandler db0 20 (some "z@w.com") (some "short12") (some "Zed") "id9").1.status = 400 ∧
     (registerHandler db0 20 (some "z@w.com") (some "short12") (some "Zed") "id9").2 = db0) ∧
    ((registerHandler db0 20 (some "a@b.com") (some "password123") (some "Zed") "id9").1 =
       errResp 409 "Conflict" "User with this email already exists" ∧
     (registerHandler db0 20 (some "a@b.com") (some "password123") (some "Zed") "id9").2 = db0) :=
  ⟨(registerHandler_validation db0 20 (some "z@w.com") (some "short12") (some "Zed") "id9").1
      (Or.inr (Or.inr (Or.inr (Or.inr (by decide))))),
   (registerHandler_validation db0 20 (some "a@b.com") (some "password123") (some "Zed") "id9").2
      user1 (by decide) (by decide) (by decide) (by decide) (by decide) (by decide)⟩

/-! ### C2: refresh with an expired stored token consumes it -/

/-- C2.  A refresh whose token matches a stored row with `expiresAt` in the
past answers the 401 expiry error and deletes the matching rows from the
store (users and todos untouched); on the resulting store a repeated
refresh of the same token answers the 401 "Invalid refresh token" error
(not the expiry error) with no state change, and a revoke of the same token
answers the 404 not-found error with no state change. -/
theorem refresh_expired_consumes_token (db : DB) (cfg cfg2 : Config) (now now2 : Nat)
    (t : String) (row : RefreshTokenRow) (user : User)
    (ht : t ≠ "")
    (hfind : findRefreshJoin db t = some (row, user))
    (hexp : row.expiresAt < now) :
    (refreshHandler db cfg now (some t)).1 =
        errResp 401 "Unauthorized" "Refresh token has expired"
    ∧ (refreshHandler db cfg now (some t)).2.refreshTokens =
        db.refreshTokens.filter (fun r => !(r.token == t))
    ∧ (refreshHandler db cfg now (some t)).2.users = db.users
    ∧ (refreshHandler db cfg now (some t)).2.todos = db.todos
    ∧ refreshHandler (refreshHandler db cfg now (some t)).2 cfg2 now2 (some t) =
        (errResp 401 "Unauthorized" "Invalid refresh token",
         (refreshHandler db cfg now (some t)).2)
    ∧ revokeHandler (refreshHandler db cfg now (some t)).2 (some t) =
        (errResp 404 "Not Found" "Refresh token not found",
         (refreshHandler db cfg now (some t)).2) := by
  have E : refreshHandler db cfg now (some t) =
      (errResp 401 "Unauthorized" "Refresh token has expired",
       { db with refreshTokens := db.refreshTokens.filter (fun r => !(r.token == t)) }) := by
    unfold refreshHandler
    simp [isFalsyStr, beq_iff_eq, ht, hfind, hexp]
  have hgone : (db.refreshTokens.filter (fun r => !(r.token == t))).find?
      (fun r => r.token == t) = none :=
    find?_filter_not db.refreshTokens (fun r => r.token == t)
  have hjoin' : findRefreshJoin
      { db with refreshTokens := db.refreshTokens.filter (fun r => !(r.token == t)) } t = none := by
    unfold findRefreshJoin
    simp [hgone]
  refine ⟨by rw [E], by rw [E], by rw [E], by rw [E], ?_, ?_⟩
  · rw [E]
    unfold refreshHandler
    simp [isFalsyStr, beq_iff_eq, ht, hjoin']
  · rw [E]
    unfold revokeHandler
    simp [isFalsyStr, beq_iff_eq, ht, hgone,
          filter_not_eq_self_of_find?_none _ _ hgone]

/-- Witness for C2 at concrete inputs: on `db0`, refreshing `row1`'s token
at time 2000 (past its expiry 1000) answers the expiry 401 and consumes the
row; the follow-up refresh answers the invalid-token 401 and the follow-up
revoke the 404. -/
theorem refresh_expired_consumes_token_witness :
    (refreshHandler db0 cfg0 2000 (some "refreshtok1")).1 =
        errResp 401 "Unauthorized" "Refresh token has expired"
    ∧ (refreshHandler db0 cfg0 2000 (some "refreshtok1")).2.refreshTokens =
        db0.refreshTokens.filter (fun r => !(r.token == "refreshtok1"))
    ∧ (refreshHandler db0 cfg0 2000 (some "refreshtok1")).2.users = db0.users
    ∧ (refreshHandler db0 cfg0 2000 (some "refreshtok1")).2.todos = db0.todos
    ∧ refreshHandler (refreshHandler db0 cfg0 2000 (some "refreshtok1")).2 cfg0 2001
        (some "refreshtok1") =
        (errResp 401 "Unauthorized" "Invalid refresh token",
         (refreshHandler db0 cfg0 2000 (some "refreshtok1")).2)
    ∧ revokeHandler (refreshHandler db0 cfg0 2000 (some "refreshtok1")).2
        (some "refreshtok1") =
        (errResp 404 "Not Found" "Refresh token not found",
         (refreshHandler db0 cfg0 2000 (some "refreshtok1")).2) :=
  refresh_expired_consumes_token db0 cfg0 cfg0 2000 2001 "refreshtok1" row1 user1
    (by decide) (by decide) (by decide)

/-! ### C3: refresh with a valid stored token rotates nothing -/

/-- C3.  A refresh whose token matches a stored, unexpired row answers 200
with a fresh access token bound to the row's owning account (the joined
user, whose id is the row's `userId`), and returns the database exactly
unchanged: the row is neither deleted nor rewritten and nothing is
inserted. -/
theorem refresh_valid_issues_without_rotation (db : DB) (cfg : Config) (now : Nat)
    (t : String) (row : RefreshTokenRow) (user : User)
    (ht : t ≠ "")
    (hfind : findRefreshJoin db t = some (row, user))
    (hnotexp : ¬ row.expiresAt < now) :
    refreshHandler db cfg now (some t) =
      (⟨200, .obj [("success", .bool true), ("token_type", .str "Bearer"),
                   ("access_token", .str (generateAccessToken user.id user.email
                      cfg.jwtSecret cfg.accessExpiry now)),
                   ("expires_in", .num (Int.ofNat cfg.accessExpiry))]⟩, db)
    ∧ user.id = row.userId := by
  constructor
  · unfold refreshHandler
    simp [isFalsyStr, beq_iff_eq, ht, hfind, hnotexp]
  · unfold findRefreshJoin at hfind
    rcases h1 : db.refreshTokens.find? (fun r => r.token == t) with _ | r
    · simp [h1] at hfind
    · simp only [h1] at hfind
      rcases h2 : db.users.find? (fun u => u.id == r.userId) with _ | u2
      · simp [h2] at hfind
      · simp only [h2, Option.some.injEq, Prod.mk.injEq] at hfind
        obtain ⟨hr, hu⟩ := hfind
        subst hr; subst hu
        have hp := List.find?_some h2
        simpa [beq_iff_eq] using hp

/-- Witness for C3 at concrete inputs: on `db0`, refreshing `row1`'s token
at time 500 (before its expiry 1000) answers 200 with an access token for
`user1` and leaves `db0` entirely unchanged. -/
theorem refresh_valid_issues_without_rotation_witness :
    refreshHandler db0 cfg0 500 (some "refreshtok1") =
      (⟨200, .obj [("success", .bool true), ("token_type", .str "Bearer"),
                   ("access_token", .str (generateAccessToken user1.id user1.email
                      cfg0.jwtSecret cfg0.accessExpiry 500)),
                   ("expires_in", .num (Int.ofNat cfg0.accessExpiry))]⟩, db0)
    ∧ user1.id = row1.userId :=
  refresh_valid_issues_without_rotation db0 cfg0 500 "refreshtok1" row1 user1
    (by decide) (by decide) (by decide)

/-! ### C8: revoke deletes exactly the matching row, 404 when gone -/

/-- C8.  When no stored row matches the supplied token string, revoke
answers the 404 not-found error and leaves the store unchanged; when a row
matches, revoke answers the 200 success, removes exactly the rows matching
that token string (users and todos untouched), and a repeated revoke of the
same token answers the 404 each time with no further state change — never a
silent success. -/
theorem revoke_deletes_matching_row (db : DB) (t : String) (ht : t ≠ "") :
    (db.refreshTokens.find? (fun r => r.token == t) = none →
      revokeHandler db (some t) = (errResp 404 "Not Found" "Refresh token not found", db))
    ∧ (∀ r0, db.refreshTokens.find? (fun r => r.token == t) = some r0 →
        (revokeHandler db (some t)).1 =
          ⟨200, .obj [("success", .bool true), ("message", .str "Token revoked successfully")]⟩
        ∧ (revokeHandler db (some t)).2.refreshTokens =
            db.refreshTokens.filter (fun r => !(r.token == t))
        ∧ (revokeHandler db (some t)).2.users = db.users
        ∧ (revokeHandler db (some t)).2.todos = db.todos
        ∧ revokeHandler (revokeHandler db (some t)).2 (some t) =
            (errResp 404 "Not Found" "Refresh token not found",
             (revokeHandler db (some t)).2)) := by
  constructor
  · intro hnone
    unfold revokeHandler
    simp [isFalsyStr, beq_iff_eq, ht, hnone,
          filter_not_eq_self_of_find?_none _ _ hnone]
  · intro r0 hsome
    have E : revokeHandler db (some t) =
        (⟨200, .obj [("success", .bool true), ("message", .str "Token revoked successfully")]⟩,
         { db with refreshTokens := db.refreshTokens.filter (fun r => !(r.token == t)) }) := by
      unfold revokeHandler
      simp [isFalsyStr, beq_iff_eq, ht, hsome]
    have hgone : (db.refreshTokens.filter (fun r => !(r.token == t))).find?
        (fun r => r.token == t) = none :=
      find?_filter_not db.refreshTokens (fun r => r.token == t)
    refine ⟨by rw [E], by rw [E], by rw [E], by rw [E], ?_⟩
    rw [E]
    unfold revokeHandler
    simp [isFalsyStr, beq_iff_eq, ht, hgone,
          filter_not_eq_self_of_find?_none _ _ hgone]

/-- Witness for C8 at concrete inputs: on `db0`, revoking the stored token
succeeds once with the exact deletion and every repeated revoke answers the
404; revoking an unknown token answers the 404 with no state change. -/
theorem revoke_deletes_matching_row_witness :
    (revokeHandler db0 (some "ghost-token") =
       (errResp 404 "Not Found" "Refresh token not found", db0))
    ∧ ((revokeHandler db0 (some "refreshtok1")).1 =
        ⟨200, .obj [("success", .bool true), ("message", .str "Token revoked successfully")]⟩
       ∧ (revokeHandler db0 (some "refreshtok1")).2.refreshTokens =
           db0.refreshTokens.filter (fun r => !(r.token == "refreshtok1"))
       ∧ (revokeHandler db0 (some "refreshtok1")).2.users = db0.users
       ∧ (revokeHandler db0 (some "refreshtok1")).2.todos = db0.todos
       ∧ revokeHandler (revokeHandler db0 (some "refreshtok1")).2 (some "refreshtok1") =
           (errResp 404 "Not Found" "Refresh token not found",
            (revokeHandler db0 (some "refreshtok1")).2)) :=
  ⟨(revoke_deletes_matching_row db0 "ghost-token" (by decide)).1 (by decide),
   (revoke_deletes_matching_row db0 "refreshtok1" (by decide)).2 row1 (by decide)⟩

/-! ### C6: todo lookups are ownership-scoped -/

/-- C6.  For an authenticated GET, PUT or DELETE on `/todos/:id` with a
well-formed id, the lookup filters by both the todo id and the
authenticated account id; when that scoped lookup misses — the todo is
absent or belongs to a different account, two cases the caller cannot tell
apart — each handler answers the same 404 not-found response (never a 403)
and changes nothing; and a todo the scoped lookup returns always belongs to
the authenticated account, so another account's data is never served. -/
theorem todo_handlers_ownership_scoped (db : DB) (now : Nat) (uid tid : String)
    (title description : Option String) (completed : Option JsValue)
    (hvalid : isValidUUID tid = true) :
    (findOwnedTodo db uid tid = none →
      getTodoHandler db uid tid = errResp 404 "Not Found" "Todo not found"
      ∧ putTodoHandler db now uid tid title description completed =
          (errResp 404 "Not Found" "Todo not found", db)
      ∧ deleteTodoHandler db uid tid = (errResp 404 "Not Found" "Todo not found", db))
    ∧ (∀ td, findOwnedTodo db uid tid = some td →
        td.userId = uid ∧ td.id = tid ∧ getTodoHandler db uid tid = ⟨200, todoJson td⟩) := by
  constructor
  · intro hmiss
    refine ⟨?_, ?_, ?_⟩
    · unfold getTodoHandler
      simp [hvalid, hmiss]
    · unfold putTodoHandler
      simp [hvalid, hmiss]
    · unfold deleteTodoHandler
      simp [hvalid, hmiss]
  · intro td hhit
    have hp := List.find?_some hhit
    simp only [Bool.and_eq_true, beq_iff_eq] at hp
    refine ⟨hp.2, hp.1, ?_⟩
    unfold getTodoHandler
    simp [hvalid, hhit]

/-- Witness for C6 at concrete inputs: on `db0`, `user1`'s request for
`user2`'s todo id answers 404 from all three handlers with no state change,
while `user2`'s own request is served its own todo. -/
theorem todo_handlers_ownership_scoped_witness :
    (getTodoHandler db0 "11111111-1111-4111-8111-111111111111"
        "33333333-3333-4333-8333-333333333333" =
        errResp 404 "Not Found" "Todo not found"
      ∧ putTodoHandler db0 99 "11111111-1111-4111-8111-111111111111"
          "33333333-3333-4333-8333-333333333333" (some "Hacked") none none =
          (errResp 404 "Not Found" "Todo not found", db0)
      ∧ deleteTodoHandler db0 "11111111-1111-4111-8111-111111111111"
          "33333333-3333-4333-8333-333333333333" =
          (errResp 404 "Not Found" "Todo not found", db0))
    ∧ (todo2.userId = "22222222-2222-4222-8222-222222222222"
      ∧ todo2.id = "33333333-3333-4333-8333-333333333333"
      ∧ getTodoHandler db0 "22222222-2222-4222-8222-222222222222"
          "33333333-3333-4333-8333-333333333333" = ⟨200, todoJson todo2⟩) :=
  ⟨(todo_handlers_ownership_scoped db0 99 "11111111-1111-4111-8111-111111111111"
      "33333333-3333-4333-8333-333333333333" (some "Hacked") none none (by decide)).1
      (by decide),
   (todo_handlers_ownership_scoped db0 99 "22222222-2222-4222-8222-222222222222"
      "33333333-3333-4333-8333-333333333333" (some "Hacked") none none (by decide)).2
      todo2 (by decide)⟩

/-! ### C10: the preferences typeof check admits null and arrays -/

/-- After a `PUT /profile` whose supplied preferences value passes the
`typeof` check, the stored user list is the original list with exactly the
matching rows rewritten by the update object (preferences set to the
`JSON.stringify` text). -/
theorem putProfile_users_eq (db : DB) (now : Nat) (uid : String)
    (name bio : Option String) (v : JsValue) (hobj : jsTypeof v = "object") :
    (putProfileHandler db now uid name bio (some v)).2.users =
      db.users.map (fun x => if x.id == uid then
        applyProfileUpdates now name bio (some (jsStringify v)) x else x) := by
  unfold putProfileHandler
  simp only [hobj, beq_self_eq_true, Bool.not_true, Bool.false_eq_true, if_false]
  split
  · rfl
  · split <;> rfl

/-- After a passing `PUT /profile`, looking the user up again finds the
updated row. -/
theorem putProfile_find_eq (db : DB) (now : Nat) (uid : String)
    (name bio : Option String) (v : JsValue) (u : User)
    (hobj : jsTypeof v = "object")
    (hu : db.users.find? (fun x => x.id == uid) = some u) :
    (putProfileHandler db now uid name bio (some v)).2.users.find?
        (fun x => x.id == uid) =
      some (applyProfileUpdates now name bio (some (jsStringify v)) u) := by
  rw [putProfile_users_eq db now uid name bio v hobj,
      find?_map_update db.users (fun x => x.id == uid)
        (applyProfileUpdates now name bio (some (jsStringify v))) (fun _ => rfl),
      hu]
  rfl

/-- C10.  On `PUT /profile`, the 400 "preferences must be an object" error
is answered exactly when the supplied value's `typeof` is not the string
`"object"`; `null` and arrays have `typeof` `"object"`, so they pass the
check and are stored as their `JSON.stringify` text (`"null"`, or the array
text such as `"[1,2]"`); and after storing `null` or `[1,2]` a profile read
returns that same non-plain-object value in the preferences field. -/
theorem prefs_typeof_check (db : DB) (now : Nat) (uid : String) (u : User) (v : JsValue)
    (name bio : Option String)
    (hu : db.users.find? (fun x => x.id == uid) = some u) :
    ((putProfileHandler db now uid name bio (some v)).1.status = 400 ↔
        jsTypeof v ≠ "object")
    ∧ jsTypeof JsValue.null = "object"
    ∧ (∀ xs, jsTypeof (JsValue.arr xs) = "object")
    ∧ (jsTypeof v = "object" →
        ((putProfileHandler db now uid name bio (some v)).2.users.find?
            (fun x => x.id == uid)).map (fun x => x.preferences) =
          some (jsStringify v))
    ∧ objGet (getProfileHandler
        (putProfileHandler db now uid name bio (some JsValue.null)).2 uid).body
        "preferences" = some JsValue.null
    ∧ objGet (getProfileHandler
        (putProfileHandler db now uid name bio
          (some (JsValue.arr [.num 1, .num 2]))).2 uid).body
        "preferences" = some (JsValue.arr [.num 1, .num 2]) := by
  refine ⟨⟨?_, ?_⟩, rfl, fun _ => rfl, ?_, ?_, ?_⟩
  · intro h400
    by_contra hne
    unfold putProfileHandler at h400
    simp only [hne, beq_self_eq_true, Bool.not_true, Bool.false_eq_true, if_false] at h400
    rw [find?_map_update db.users (fun x => x.id == uid)
          (applyProfileUpdates now name bio (some (jsStringify v))) (fun _ => rfl),
        hu] at h400
    rcases hp : jsonParse (applyProfileUpdates now name bio
        (some (jsStringify v)) u).preferences with _ | pv <;>
      simp [hp, errResp] at h400
  · intro hne
    have hb : (jsTypeof v == "object") = false := by
      simp [hne]
    unfold putProfileHandler
    simp [hb, errResp]
  · intro hobj
    rw [putProfile_find_eq db now uid name bio v u hobj hu]
    rfl
  · have hf := putProfile_find_eq db now uid name bio JsValue.null u rfl hu
    have hp : jsonParse (applyProfileUpdates now name bio
        (some (jsStringify JsValue.null)) u).preferences = some JsValue.null := rfl
    unfold getProfileHandler
    simp only [hf, hp]
    rfl
  · have hf := putProfile_find_eq db now uid name bio (JsValue.arr [.num 1, .num 2]) u rfl hu
    have hp : jsonParse (applyProfileUpdates now name bio
        (some (jsStringify (JsValue.arr [.num 1, .num 2]))) u).preferences =
        some (JsValue.arr [.num 1, .num 2]) := rfl
    unfold getProfileHandler
    simp only [hf, hp]
    rfl

/-- Witness for C10 at concrete inputs: on `db0`, a string preferences value
is the 400, a `null` preferences value is accepted, stored as `"null"` and
read back as `null`, and `[1,2]` is stored as `"[1,2]"` and read back. -/
theorem prefs_typeof_check_witness :
    ((putProfileHandler db0 77 "11111111-1111-4111-8111-111111111111" none none
        (some (JsValue.str "dark"))).1.status = 400 ↔
      jsTypeof (JsValue.str "dark") ≠ "object")
    ∧ jsTypeof JsValue.null = "object"
    ∧ (∀ xs, jsTypeof (JsValue.arr xs) = "object")
    ∧ (jsTypeof (JsValue.str "dark") = "object" →
        ((putProfileHandler db0 77 "11111111-1111-4111-8111-111111111111" none none
            (some (JsValue.str "dark"))).2.users.find?
            (fun x => x.id == "11111111-1111-4111-8111-111111111111")).map
          (fun x => x.preferences) = some (jsStringify (JsValue.str "dark")))
    ∧ objGet (getProfileHandler
        (putProfileHandler db0 77 "11111111-1111-4111-8111-111111111111" none none
          (some JsValue.null)).2 "11111111-1111-4111-8111-111111111111").body
        "preferences" = some JsValue.null
    ∧ objGet (getProfileHandler
        (putProfileHandler db0 77 "11111111-1111-4111-8111-111111111111" none none
          (some (JsValue.arr [.num 1, .num 2]))).2
        "11111111-1111-4111-8111-111111111111").body
        "preferences" = some (JsValue.arr [.num 1, .num 2]) :=
  prefs_typeof_check db0 77 "11111111-1111-4111-8111-111111111111" user1
    (JsValue.str "dark") none none (by decide)

/-! ### C9: refresh-row lifetime invariant -/

/-- The C9 store invariant: every refresh-token row expires exactly the
configured refresh lifetime after its creation, hence strictly later. -/
def refreshRowInvariant (cfg : Config) (db : DB) : Prop :=
  ∀ r ∈ db.refreshTokens,
    r.expiresAt = r.createdAt + cfg.refreshExpiry ∧ r.createdAt < r.expiresAt

/-- C9.  With a positive configured refresh lifetime, the successful-login
insert creates its row with `expiresAt` exactly `cfg.refreshExpiry` seconds
after (hence strictly later than) its `createdAt`; and every
state-modifying handler of the service preserves the invariant that all
stored rows have this shape — login is the only operation that inserts
refresh-token rows, the others leave the table unchanged or only delete
from it — so the invariant holds for every row ever stored. -/
theorem refresh_row_lifetime_invariant (cfg cfg2 : Config) (db : DB) (now : Nat)
    (e p n t title desc : Option String) (prefs completed : Option JsValue)
    (uid tid newId rt : String)
    (hpos : 0 < cfg.refreshExpiry)
    (hinv : refreshRowInvariant cfg db) :
    refreshRowInvariant cfg (loginHandler db cfg now e p rt).2
    ∧ refreshRowInvariant cfg (registerHandler db now e p n newId).2
    ∧ refreshRowInvariant cfg (refreshHandler db cfg2 now t).2
    ∧ refreshRowInvariant cfg (revokeHandler db t).2
    ∧ refreshRowInvariant cfg (putProfileHandler db now uid n p prefs).2
    ∧ refreshRowInvariant cfg (postTodoHandler db now uid title desc newId).2
    ∧ refreshRowInvariant cfg (putTodoHandler db now uid tid title desc completed).2
    ∧ refreshRowInvariant cfg (deleteTodoHandler db uid tid).2 := by
  refine ⟨?_, ?_, ?_, ?_, ?_, ?_, ?_, ?_⟩
  · unfold loginHandler
    dsimp only
    split
    · exact hinv
    · split
      · exact hinv
      · split
        · exact hinv
        · intro r hr
          rcases List.mem_append.mp hr with hold | hnew
          · exact hinv r hold
          · rcases List.mem_singleton.mp hnew with rfl
            exact ⟨rfl, Nat.lt_add_of_pos_right hpos⟩
  · unfold registerHandler
    dsimp only
    split
    · exact hinv
    · split
      · exact hinv
      · split
        · exact hinv
        · split
          · exact hinv
          · exact hinv
  · unfold refreshHandler
    dsimp only
    split
    · exact hinv
    · split
      · exact hinv
      · split
        · intro r hr
          exact hinv r (List.mem_of_mem_filter hr)
        · exact hinv
  · unfold revokeHandler
    dsimp only
    split
    · exact hinv
    · split
      · intro r hr
        exact hinv r (List.mem_of_mem_filter hr)
      · intro r hr
        exact hinv r (List.mem_of_mem_filter hr)
  · unfold putProfileHandler
    dsimp only
    split
    · exact hinv
    · split
      · exact hinv
      · split
        · exact hinv
        · exact hinv
  · unfold postTodoHandler
    dsimp only
    split
    · exact hinv
    · exact hinv
  · unfold putTodoHandler
    dsimp only
    split
    · exact hinv
    · split
      · exact hinv
      · split
        · exact hinv
        · exact hinv
  · unfold deleteTodoHandler
    split
    · exact hinv
    · split
      · exact hinv
      · exact hinv

/-- Witness for C9 at concrete inputs: starting from a store with no
refresh rows, the reference configuration (refresh lifetime 2592000)
preserves the invariant across all mutating handlers, in particular across
a successful login that inserts a row at time 50 expiring at 2592050. -/
theorem refresh_row_lifetime_invariant_witness :
    refreshRowInvariant cfg0
      (loginHandler ⟨[user1], [], []⟩ cfg0 50 (some "a@b.com") (some "password123") "rt9").2
    ∧ refreshRowInvariant cfg0
      (registerHandler ⟨[user1], [], []⟩ 50 (some "a@b.com") (some "password123") (some "Z") "id9").2
    ∧ refreshRowInvariant cfg0 (refreshHandler ⟨[user1], [], []⟩ cfg0 50 (some "rt9")).2
    ∧ refreshRowInvariant cfg0 (revokeHandler ⟨[user1], [], []⟩ (some "rt9")).2
    ∧ refreshRowInvariant cfg0
      (putProfileHandler ⟨[user1], [], []⟩ 50 user1.id (some "Z") (some "password123") none).2
    ∧ refreshRowInvariant cfg0
      (postTodoHandler ⟨[user1], [], []⟩ 50 user1.id (some "T") none "id9").2
    ∧ refreshRowInvariant cfg0
      (putTodoHandler ⟨[user1], [], []⟩ 50 user1.id "id9" (some "T") none none).2
    ∧ refreshRowInvariant cfg0 (deleteTodoHandler ⟨[user1], [], []⟩ user1.id "id9").2 :=
  refresh_row_lifetime_invariant cfg0 cfg0 ⟨[user1], [], []⟩ 50
    (some "a@b.com") (some "password123") (some "Z") (some "rt9") (some "T") none
    none none user1.id "id9" "id9" "rt9"
    (by decide) (by intro r hr; simp at hr)

end ApiBasics
